import Mathlib

/-!
Verification of the personal-library-manager store (src/main.py).

The store keeps a list of book records in memory and mirrors it to a flat
JSON file.  We embed the record type, the file state and each store
operation as pure Lean functions, with the file-system state passed
explicitly, and prove the specified properties about them.
-/

/-- One book record: the dictionary
`{"title": ..., "author": ..., "year": ..., "genre": ..., "read": ...}`
built by `add_book` in src/main.py. -/
structure Book where
  title : String
  author : String
  year : Nat
  genre : String
  read : Bool
deriving DecidableEq

/-- State of the storage file `library_data.json`.
`absent` is the `FileNotFoundError` case, `malformed` the
`json.JSONDecodeError` case (unparsable content), and `stored books` a file
holding a well-formed list of book records (the only content
`save_library` ever writes). -/
inductive FileState where
  | absent
  | malformed
  | stored (books : List Book)
deriving DecidableEq

/-- `load_library` (src/main.py lines 18-23): read the storage file and
return its record list; on `FileNotFoundError` or `json.JSONDecodeError`
return the empty list. -/
def load_library : FileState → List Book
  | .absent => []
  | .malformed => []
  | .stored books => books

/-- `save_library` (src/main.py lines 26-28): overwrite the storage file
with the full record list; the previous file content is not consulted. -/
def save_library (library : List Book) : FileState :=
  .stored library

/-- The in-memory sequence together with the storage file, threaded
explicitly through the mutating operations. -/
structure LibState where
  library : List Book
  file : FileState
deriving DecidableEq

/-- Python's `str.lower()` on the character list of a string
(ASCII case folding, which covers every string in the claims). -/
def lowerStr (s : String) : List Char :=
  s.data.map Char.toLower

/-- The loop test of `remove_book`:
`book["title"].lower() == title.lower()`. -/
def titleMatches (title : String) (book : Book) : Bool :=
  decide (lowerStr book.title = lowerStr title)

/-- `add_book` (src/main.py lines 31-39): append the new record to the
sequence, then `save_library`. -/
def add_book (s : LibState) (title author : String) (year : Nat)
    (genre : String) (read_status : Bool) : LibState :=
  let library := s.library ++ [⟨title, author, year, genre, read_status⟩]
  { library := library, file := save_library library }

/-- The `for book in library` loop of `remove_book`: delete the first
record whose title matches case-insensitively, or report no match. -/
def removeFirst (title : String) : List Book → Option (List Book)
  | [] => none
  | book :: rest =>
    if titleMatches title book then some rest
    else (removeFirst title rest).map (book :: ·)

/-- `remove_book` (src/main.py lines 42-48): remove the first record whose
title matches case-insensitively, `save_library`, and return `true`;
if nothing matches, return `false` without touching the file. -/
def remove_book (s : LibState) (title : String) : LibState × Bool :=
  match removeFirst title s.library with
  | some library => ({ library := library, file := save_library library }, true)
  | none => (s, false)

/-- The comprehension test of `search_books`:
`query.lower() in book["title"].lower() or query.lower() in book["author"].lower()`
(Python `in` on strings is substring containment). -/
def matchesQuery (query : String) (book : Book) : Bool :=
  decide (lowerStr query <:+: lowerStr book.title) ||
    decide (lowerStr query <:+: lowerStr book.author)

/-- `search_books` (src/main.py lines 51-52): the records whose title or
author contains the query case-insensitively, in original order. -/
def search_books (library : List Book) (query : String) : List Book :=
  library.filter (matchesQuery query)

/-- `calculate_statistics` (src/main.py lines 55-59): total count and the
percentage of records marked read, `0` on an empty library.  The Python
float arithmetic is embedded as exact rational arithmetic. -/
def calculate_statistics (library : List Book) : Nat × ℚ :=
  let total_books := library.length
  let read_books := library.countP (·.read)
  let read_percentage : ℚ :=
    if total_books > 0 then (read_books : ℚ) / (total_books : ℚ) * 100 else 0
  (total_books, read_percentage)

/-- `get_random_book` (src/main.py lines 62-63):
`random.choice(library) if library else None`.  The random draw of
`random.choice` is embedded as an explicit natural number `r` mapped
uniformly onto the index range `[0, length)`. -/
def get_random_book (library : List Book) (r : Nat) : Option Book :=
  if h : 0 < library.length then
    some (library.get ⟨r % library.length, Nat.mod_lt r h⟩)
  else
    none

/-- `search_books` as invoked on the store state: it reads the sequence
and performs no mutation and no save (src/main.py line 52 has no
`save_library` call and builds a fresh list). -/
def search_op (s : LibState) (query : String) : LibState × List Book :=
  (s, search_books s.library query)

/-- `calculate_statistics` as invoked on the store state: read-only. -/
def statistics_op (s : LibState) : LibState × (Nat × ℚ) :=
  (s, calculate_statistics s.library)

/-- `get_random_book` as invoked on the store state: read-only. -/
def random_op (s : LibState) (r : Nat) : LibState × Option Book :=
  (s, get_random_book s.library r)

/-- Two case variants of "Dune" followed by an unrelated record, for the
remove-first-match scenario of the spec. -/
def duneLib : List Book :=
  [⟨"Dune", "Frank Herbert", 1965, "Sci-Fi", true⟩,
   ⟨"DUNE", "F. Herbert", 1965, "Sci-Fi", false⟩,
   ⟨"Emma", "Jane Austen", 1815, "Classic", true⟩]

/-- Store state holding `duneLib` both in memory and on disk. -/
def sDune : LibState := ⟨duneLib, save_library duneLib⟩

/-- A single-record store state used by concrete witnesses. -/
def sEmma : LibState :=
  ⟨[⟨"Emma", "Jane Austen", 1815, "Classic", true⟩],
   save_library [⟨"Emma", "Jane Austen", 1815, "Classic", true⟩]⟩

/-- The Tolkien record of the spec's search scenario. -/
def hobbit : Book := ⟨"The Hobbit", "J.R.R. Tolkien", 1937, "Fantasy", true⟩

/-- Four records whose read flags are `[true, true, false, false]`, the
spec's statistics scenario. -/
def fourBooks : List Book :=
  [⟨"a", "w", 1, "g", true⟩, ⟨"b", "x", 2, "g", true⟩,
   ⟨"c", "y", 3, "g", false⟩, ⟨"d", "z", 4, "g", false⟩]

/-- The loop of `remove_book` deletes exactly the first case-insensitive
title match (at index `findIdx`) when one exists, and reports `none`
otherwise. -/
theorem removeFirst_eq (title : String) (lib : List Book) :
    removeFirst title lib =
      if lib.any (titleMatches title) then
        some (lib.eraseIdx (lib.findIdx (titleMatches title)))
      else none := by
  induction lib with
  | nil => simp [removeFirst]
  | cons b rest ih =>
    by_cases hb : titleMatches title b
    · simp [removeFirst, hb, List.findIdx_cons, List.eraseIdx_cons_zero]
    · simp only [removeFirst, hb, if_false, ih, List.any_cons, Bool.false_or,
        List.findIdx_cons, cond_false]
      by_cases ha : rest.any (titleMatches title) = true
      · simp [ha, List.eraseIdx_cons_succ]
      · simp [ha]

/-- C1: when at least one record's title matches the given title
case-insensitively, `remove_book` returns success, removes exactly the
first matching record in sequence order (length drops by exactly 1, even
when several records share the title up to case), and saves the result. -/
theorem remove_book_found (s : LibState) (title : String)
    (h : ∃ b ∈ s.library, titleMatches title b = true) :
    (remove_book s title).2 = true ∧
    (remove_book s title).1.library =
      s.library.eraseIdx (s.library.findIdx (titleMatches title)) ∧
    (remove_book s title).1.library.length + 1 = s.library.length ∧
    (remove_book s title).1.file =
      save_library ((remove_book s title).1.library) := by
  have hany : s.library.any (titleMatches title) = true := List.any_eq_true.mpr h
  have hlt : s.library.findIdx (titleMatches title) < s.library.length :=
    List.findIdx_lt_length_of_exists h
  have hpos : 0 < s.library.length := Nat.lt_of_le_of_lt (Nat.zero_le _) hlt
  refine ⟨?_, ?_, ?_, ?_⟩ <;>
    simp [remove_book, removeFirst_eq, hany, List.length_eraseIdx, hlt,
      Nat.sub_add_cancel (Nat.succ_le_of_lt hpos)]

/-- C1 witness: removing "dune" from the two-case-variant Dune library
succeeds and removes only the first occurrence. -/
theorem remove_book_found_witness :
    (∃ b ∈ sDune.library, titleMatches "dune" b = true) ∧
    ((remove_book sDune "dune").2 = true ∧
      (remove_book sDune "dune").1.library =
        sDune.library.eraseIdx (sDune.library.findIdx (titleMatches "dune")) ∧
      (remove_book sDune "dune").1.library.length + 1 = sDune.library.length ∧
      (remove_book sDune "dune").1.file =
        save_library ((remove_book sDune "dune").1.library)) :=
  ⟨by decide, remove_book_found sDune "dune" (by decide)⟩

/-- C5: when no record's title matches case-insensitively, `remove_book`
returns failure and leaves the in-memory sequence and the storage file
completely unchanged — no save is performed. -/
theorem remove_book_not_found (s : LibState) (title : String)
    (h : ∀ b ∈ s.library, titleMatches title b = false) :
    remove_book s title = (s, false) := by
  have hany : s.library.any (titleMatches title) = false := by
    simp only [List.any_eq_false]
    intro b hb
    simp [h b hb]
  simp [remove_book, removeFirst_eq, hany]

/-- C5 witness: removing "nonexistent" from a one-record store leaves the
state untouched and reports failure. -/
theorem remove_book_not_found_witness :
    (∀ b ∈ sEmma.library, titleMatches "nonexistent" b = false) ∧
    remove_book sEmma "nonexistent" = (sEmma, false) :=
  ⟨by decide, remove_book_not_found sEmma "nonexistent" (by decide)⟩

/-- C7: `add_book` appends exactly one record — the length grows by
exactly 1, the pre-existing records keep their places and order, the new
last record carries exactly the supplied fields (no duplicate check), and
the result is saved. -/
theorem add_book_spec (s : LibState) (title author : String) (year : Nat)
    (genre : String) (read_status : Bool) :
    (add_book s title author year genre read_status).library =
      s.library ++ [⟨title, author, year, genre, read_status⟩] ∧
    (add_book s title author year genre read_status).library.length =
      s.library.length + 1 ∧
    (add_book s title author year genre read_status).library.take
      s.library.length = s.library ∧
    (add_book s title author year genre read_status).library.getLast? =
      some ⟨title, author, year, genre, read_status⟩ ∧
    (add_book s title author year genre read_status).file =
      save_library ((add_book s title author year genre read_status).library) := by
  refine ⟨rfl, ?_, ?_, ?_, rfl⟩
  · simp [add_book]
  · simp [add_book, List.take_left]
  · simp [add_book, List.getLast?_concat]

/-- Every record matches the empty query: the empty character list is an
infix of every lowered title. -/
theorem matchesQuery_empty (book : Book) : matchesQuery "" book = true := by
  have h0 : lowerStr "" = [] := rfl
  simp [matchesQuery, h0, List.nil_infix]

/-- C2: `search_books` returns exactly the order-preserving subsequence of
records whose title or author contains the query as a case-insensitive
substring; the empty query returns the whole library, and "TOLKIEN"
matches the record authored by "J.R.R. Tolkien". -/
theorem search_books_spec (library : List Book) (query : String) :
    (search_books library query).Sublist library ∧
    search_books library query = library.filter (fun book =>
      decide (lowerStr query <:+: lowerStr book.title) ||
        decide (lowerStr query <:+: lowerStr book.author)) ∧
    search_books library "" = library ∧
    search_books [hobbit] "TOLKIEN" = [hobbit] := by
  refine ⟨List.filter_sublist _, rfl, ?_, by decide⟩
  simp only [search_books, List.filter_eq_self]
  intro b _
  exact matchesQuery_empty b

/-- C3: `calculate_statistics` returns the total count paired with the
read percentage `read_count / total * 100`, which is `0` on the empty
library (no division by zero); on the spec's four-record example it
returns `(4, 50)`. -/
theorem calculate_statistics_spec (library : List Book) :
    (calculate_statistics library).1 = library.length ∧
    (calculate_statistics library).2 =
      (if library.length = 0 then 0
       else ((library.countP (·.read) : ℚ) / (library.length : ℚ) * 100)) ∧
    calculate_statistics [] = (0, 0) ∧
    calculate_statistics fourBooks = (4, 50) := by
  refine ⟨rfl, ?_, rfl, ?_⟩
  · by_cases h : library.length = 0 <;>
      simp [calculate_statistics, h, Nat.pos_of_ne_zero]
  · norm_num [calculate_statistics, fourBooks, List.countP, List.countP.go]

/-- C4: `load_library` returns the empty sequence when the storage file is
absent (`FileNotFoundError`) or its content is malformed
(`json.JSONDecodeError`), and the stored record list otherwise; being a
total function, it never raises to the caller. -/
theorem load_library_spec :
    load_library FileState.absent = [] ∧
    load_library FileState.malformed = [] ∧
    ∀ books : List Book, load_library (FileState.stored books) = books :=
  ⟨rfl, rfl, fun _ => rfl⟩

/-- C6: saving any record sequence and loading it back yields a sequence
equal field-for-field (title, author, year, genre, read) to the one
saved. -/
theorem save_load_round_trip (books : List Book) :
    load_library (save_library books) = books ∧
    List.Forall₂ (fun a b : Book =>
        a.title = b.title ∧ a.author = b.author ∧ a.year = b.year ∧
          a.genre = b.genre ∧ a.read = b.read)
      (load_library (save_library books)) books := by
  refine ⟨rfl, ?_⟩
  exact List.forall₂_same.mpr fun a _ => ⟨rfl, rfl, rfl, rfl, rfl⟩

/-- C8: immediately after `add_book`, and after any `remove_book` that
found a match, the storage file holds exactly the in-memory sequence;
`save_library` writes the whole sequence, independent of the previous
file content (full rewrite, not an append). -/
theorem mutation_sync (s : LibState) (title author : String) (year : Nat)
    (genre : String) (read_status : Bool) (rtitle : String)
    (h : (remove_book s rtitle).2 = true) :
    (add_book s title author year genre read_status).file =
      FileState.stored ((add_book s title author year genre read_status).library) ∧
    (remove_book s rtitle).1.file =
      FileState.stored ((remove_book s rtitle).1.library) ∧
    (∀ library : List Book, save_library library = FileState.stored library) := by
  refine ⟨rfl, ?_, fun _ => rfl⟩
  cases hr : removeFirst rtitle s.library with
  | none => simp [remove_book, hr] at h
  | some library => simp [remove_book, hr, save_library]

/-- C8 witness: after adding a record to, and removing "emma" from, the
one-record store, disk and memory agree. -/
theorem mutation_sync_witness :
    (remove_book sEmma "emma").2 = true ∧
    ((add_book sEmma "Dune" "Frank Herbert" 1965 "Sci-Fi" false).file =
      FileState.stored
        ((add_book sEmma "Dune" "Frank Herbert" 1965 "Sci-Fi" false).library) ∧
     (remove_book sEmma "emma").1.file =
      FileState.stored ((remove_book sEmma "emma").1.library) ∧
     (∀ library : List Book, save_library library = FileState.stored library)) :=
  ⟨by decide,
    mutation_sync sEmma "Dune" "Frank Herbert" 1965 "Sci-Fi" false "emma" (by decide)⟩

/-- C9: `get_random_book` only ever returns a record of the sequence, is
`some` exactly on non-empty libraries (reaching every record as the draw
varies, the embedding of uniform choice over the index range), and
returns the `none` sentinel on the empty library instead of raising. -/
theorem get_random_book_spec (library : List Book) (r : Nat) :
    (∀ b : Book, get_random_book library r = some b → b ∈ library) ∧
    (library = [] → get_random_book library r = none) ∧
    (library ≠ [] → (get_random_book library r).isSome = true) ∧
    (∀ b ∈ library, ∃ i : Nat, get_random_book library i = some b) := by
  refine ⟨?_, ?_, ?_, ?_⟩
  · intro b hb
    unfold get_random_book at hb
    split at hb
    · cases hb
      exact List.get_mem _ _ _
    · cases hb
  · intro h
    subst h
    simp [get_random_book]
  · intro h
    have hpos : 0 < library.length := List.length_pos.mpr h
    simp [get_random_book, hpos]
  · intro b hb
    obtain ⟨⟨i, hi⟩, hgi⟩ := List.mem_iff_get.mp hb
    have hpos : 0 < library.length := Nat.lt_of_le_of_lt (Nat.zero_le i) hi
    refine ⟨i, ?_⟩
    simpa [get_random_book, hpos, Nat.mod_eq_of_lt hi] using hgi

/-- C9 witness: the spec instantiated on the Dune library with draw 0. -/
theorem get_random_book_spec_witness :
    (∀ b : Book, get_random_book duneLib 0 = some b → b ∈ duneLib) ∧
    (duneLib = [] → get_random_book duneLib 0 = none) ∧
    (duneLib ≠ [] → (get_random_book duneLib 0).isSome = true) ∧
    (∀ b ∈ duneLib, ∃ i : Nat, get_random_book duneLib i = some b) :=
  get_random_book_spec duneLib 0

/-- C10: the read-only operations — search, statistics and random pick —
return the store state exactly as given: the in-memory sequence is
unmodified and the storage file is untouched (no save occurs). -/
theorem readonly_frame (s : LibState) (query : String) (r : Nat) :
    (search_op s query).1 = s ∧
    (statistics_op s).1 = s ∧
    (random_op s r).1 = s ∧
    (search_op s query).1.file = s.file ∧
    (statistics_op s).1.file = s.file ∧
    (random_op s r).1.file = s.file :=
  ⟨rfl, rfl, rfl, rfl, rfl, rfl⟩
